import Mathlib

/-!
Shallow embedding of the analysis-session logic of
`frontend/src/app/analyze/page.js` (Fake Job Detection frontend).

The page is a React component; its state variables become the fields of
`Session` below, and every way the page mutates that state (a user click on
a rendered, enabled control; a timer tick; a network response arriving; a
deferred `setTimeout` body firing) becomes one atomic step function.  Each
synchronous block of JS state updates is one atomic step, matching React
batching of `setState` calls inside one handler.  Conditional rendering in
the JSX (a control that is not rendered cannot fire) and the `disabled`
attribute of a button are embedded as the guard of the corresponding step:
when the guard fails the step returns the session unchanged with no effects.

Outputs of a step (backend requests issued, the `alert` message, the saved
download artifact) are collected in `Eff`.
-/

namespace FakeJob

/-- The four input tabs of the page (state variable `inputMode`). -/
inductive InputMode where
  | text
  | url
  | csv
  | image
deriving DecidableEq, BEq

/-- The `phase` state variable: input | scanning | verdict | bulk-results. -/
inductive Phase where
  | input
  | scanning
  | verdict
  | bulkResults
deriving DecidableEq, BEq

/-- A verdict payload as consumed by the page (fields of the JSON body that
the handlers read).  `prediction_id` and `scraped_company` are the fields the
control flow branches on; the others are carried uninterpreted. -/
structure VerdictResult where
  prediction_id : Option Nat
  prediction : String
  confidence : ℚ
  scraped_title : Option String
  scraped_company : Option String
  detected_language : Option String
  analyzed_at : Option String
deriving DecidableEq

/-- One row of a bulk report (`bulkResults.results[i]`). -/
structure BulkRow where
  row : Nat
  preview : String
  prediction : String
  confidence : ℚ
deriving DecidableEq

/-- The bulk report payload (`bulkResults`). -/
structure BulkReport where
  total_analyzed : Nat
  total_real : Nat
  total_fake : Nat
  fraud_rate : ℚ
  results : List BulkRow
deriving DecidableEq

/-- The company-verification payload (`companyVerify`). -/
structure CompanyVerification where
  verified : Bool
  match_type : Option String
  confidence : Option ℚ
deriving DecidableEq

/-- Backend requests the page can issue (endpoint plus the data that the
code puts in the request). -/
inductive Request where
  | predictText (body : String) (auth : Option String)
  | predictUrl (u : String) (auth : Option String)
  | predictBulk (file : String) (auth : String)
  | predictBulkDownload (file : String) (auth : String)
  | predictImage (file : String) (auth : Option String)
  | verifyCompanyReq (name : String)
  | feedbackReq (predictionId : Nat) (fb : String) (auth : String)
  | flagReq (predictionId : Option Nat) (auth : String)
  | historyReq (auth : String)
deriving DecidableEq

/-- Observable effects of one atomic step: backend requests issued, the
`alert(...)` message if any, and a saved download artifact (file name and
body) if any. -/
structure Eff where
  requests : List Request
  alertMsg : Option String
  savedFile : Option (String × String)
deriving DecidableEq

/-- No effects. -/
def Eff.empty : Eff := ⟨[], none, none⟩

/-- The continuation state of the one in-flight submission: which handler is
awaiting its `fetch`, or which deferred `setTimeout` body is pending.  This
is the shallow embedding of the suspended async control flow of `analyze`,
`analyzeBulk` and `analyzeImage`. -/
inductive Pending where
  | idle
  | analyzeWait
  | imageWait
  | bulkWait
  | display (fromImage : Bool) (v : VerdictResult)
  | bulkDisplay (b : BulkReport)
deriving DecidableEq

/-- Whether a submission continuation is outstanding. -/
def Pending.isIdle : Pending → Bool
  | .idle => true
  | _ => false

/-- The React state of the page plus the async bookkeeping (`timerOn` for
the live `setInterval`, `pending` for the suspended handler,
`feedbackPending` for an awaited feedback request). -/
structure Session where
  inputMode : InputMode
  jobText : String
  urlInput : String
  loading : Bool
  phase : Phase
  result : Option VerdictResult
  scanProgress : ℚ
  feedbackGiven : Option String
  feedbackPending : Option String
  companyVerify : Option CompanyVerification
  companyLoading : Bool
  csvFile : Option String
  bulkResults : Option BulkReport
  imageFile : Option String
  imagePreview : Option String
  timerOn : Bool
  pending : Pending
deriving DecidableEq

/-- The initial state of the page (the `useState` initial values). -/
def initSession : Session :=
  ⟨.text, "", "", false, .input, none, 0, none, none, none, false,
   none, none, none, none, false, .idle⟩

/-- JS truthiness of an optional numeric id (`result?.prediction_id`):
absent and 0 are falsy. -/
def natTruthy : Option Nat → Bool
  | some n => n != 0
  | none => false

/-- JS truthiness of an optional string (`data.scraped_company`): absent and
the empty string are falsy. -/
def strTruthy : Option String → Bool
  | some s => s != ""
  | none => false

/-- The JS built-in `String.prototype.trim`: strip leading and trailing
whitespace.  Modelled structurally over the character list. -/
def jsTrim (s : String) : String :=
  ⟨((s.data.dropWhile Char.isWhitespace).reverse.dropWhile
      Char.isWhitespace).reverse⟩

/-- One execution of the `setInterval` callback body on the current progress
value: `p => if (p >= 95) return 95 else return p + r * inc` where `r` is
the `Math.random()` draw of that tick and `inc` the mode magnitude
(12 for text and url, 8 for bulk, 10 for image). -/
def scanTick (inc p r : ℚ) : ℚ :=
  if 95 ≤ p then 95 else p + r * inc

/-- Progress after a sequence of tick draws starting from 0 (the value set
at submission start), before any completion or failure signal. -/
def ticksFrom (inc : ℚ) (rs : List ℚ) : ℚ :=
  rs.foldl (fun p r => scanTick inc p r) 0

/-- Tick magnitude used by the interval of the in-flight submission. -/
def tickInc : Pending → Option ℚ
  | .analyzeWait => some 12
  | .bulkWait => some 8
  | .imageWait => some 10
  | _ => none

/-- One interval tick firing.  The callback also clears its own interval
when the previous value already reached 95. -/
def stepTick (r : ℚ) (s : Session) : Session :=
  if s.timerOn = true then
    match tickInc s.pending with
    | some inc =>
        if 95 ≤ s.scanProgress then
          { s with scanProgress := 95, timerOn := false }
        else
          { s with scanProgress := scanTick inc s.scanProgress r }
    | none => s
  else s

/-- The `analyze` click (RUN ANALYSIS / SCAN URL).  Guard: the input view is
rendered only while `phase == input`; the button exists only on the text and
url tabs and is `disabled` when the trimmed input is empty or `loading` is
set; the function itself returns early when the trimmed input is empty.
Body: the synchronous prefix of `analyze()` up to the awaited `fetch`.
The trimmed input the handler reads first
(`const input = isUrl ? urlInput.trim() : jobText.trim()`): -/
def analyzeInput (s : Session) : String :=
  if s.inputMode = .url then jsTrim s.urlInput else jsTrim s.jobText

/-- The `analyze` click handler itself; see `analyzeInput` above for the
guard text and the input selection. -/
def analyze (token : Option String) (s : Session) : Session × Eff :=
  if s.phase = .input ∧ s.loading = false ∧
     (s.inputMode = .text ∨ s.inputMode = .url) ∧ analyzeInput s ≠ "" then
    ({ s with loading := true, phase := .scanning, scanProgress := 0,
              result := none, feedbackGiven := none, companyVerify := none,
              timerOn := true, pending := .analyzeWait },
     ⟨[if s.inputMode = .url then .predictUrl (analyzeInput s) token
       else .predictText (analyzeInput s) token],
      none, none⟩)
  else (s, Eff.empty)

/-- The response of the single-analysis `fetch` arriving.  On a non-ok
response or transport failure the `catch` block runs: interval cleared,
`loading` false, phase back to `input`, message alerted — `scanProgress` is
not touched by the catch block.  On ok: interval cleared, progress forced to
100, and the 600 ms display timeout becomes pending. -/
def analyzeRespond (resp : Except String VerdictResult) (s : Session) :
    Session × Eff :=
  match s.pending with
  | .analyzeWait =>
      match resp with
      | .ok data =>
          ({ s with timerOn := false, scanProgress := 100,
                    pending := .display false data }, Eff.empty)
      | .error msg =>
          ({ s with timerOn := false, loading := false, phase := .input,
                    pending := .idle },
           ⟨[], some msg, none⟩)
  | _ => (s, Eff.empty)

/-- The deferred display timeout of `analyze` / `analyzeImage` firing:
result installed, phase to verdict, loading cleared; then, if a token is
present, the history refresh fires; then, only on the text/url path, a
truthy `data.scraped_company` triggers `verifyCompany` (which sets
`companyLoading` and issues the request; its own empty-name early return can
never fire here because truthiness already excludes the empty string). -/
def displayBase (v : VerdictResult) (s : Session) : Session :=
  { s with result := some v, phase := .verdict, loading := false,
           pending := .idle }

/-- The history refresh fired by the display timeout when a token is
present (`if (token) fetchMyHistory()`). -/
def histReqs : Option String → List Request
  | some tok => [.historyReq tok]
  | none => []

/-- See the doc of `displayVerdict`: the state updates common to both
display-timeout bodies are in `displayBase` above. -/
def displayVerdict (token : Option String) (s : Session) : Session × Eff :=
  match s.pending with
  | .display fromImage v =>
      if fromImage = true then (displayBase v s, ⟨histReqs token, none, none⟩)
      else
        match v.scraped_company with
        | some name =>
            if name ≠ "" then
              ({ displayBase v s with companyLoading := true },
               ⟨histReqs token ++ [.verifyCompanyReq name], none, none⟩)
            else (displayBase v s, ⟨histReqs token, none, none⟩)
        | none => (displayBase v s, ⟨histReqs token, none, none⟩)
  | _ => (s, Eff.empty)

/-- The `analyzeBulk` click (ANALYZE file button of the csv tab).  Guard:
rendered only while `phase == input` on the csv tab with a file chosen, and
`disabled` when `loading` or no token; the function returns early when no
file or no token.  Body: synchronous prefix of `analyzeBulk()`.  Note that
it clears `bulkResults` but not `result`, `feedbackGiven` or
`companyVerify`. -/
def analyzeBulk (token : Option String) (s : Session) : Session × Eff :=
  match token, s.csvFile with
  | some tok, some file =>
      if s.phase = .input ∧ s.loading = false ∧ s.inputMode = .csv then
        ({ s with loading := true, phase := .scanning, scanProgress := 0,
                  bulkResults := none, timerOn := true, pending := .bulkWait },
         ⟨[.predictBulk file tok], none, none⟩)
      else (s, Eff.empty)
  | _, _ => (s, Eff.empty)

/-- The response of the bulk `fetch` arriving (same shape as
`analyzeRespond`; the success timeout is 400 ms). -/
def bulkRespond (resp : Except String BulkReport) (s : Session) :
    Session × Eff :=
  match s.pending with
  | .bulkWait =>
      match resp with
      | .ok data =>
          ({ s with timerOn := false, scanProgress := 100,
                    pending := .bulkDisplay data }, Eff.empty)
      | .error msg =>
          ({ s with timerOn := false, loading := false, phase := .input,
                    pending := .idle },
           ⟨[], some msg, none⟩)
  | _ => (s, Eff.empty)

/-- The deferred display timeout of `analyzeBulk` firing: report installed,
phase to bulk-results, loading cleared.  No history refresh and no company
verification on the bulk path. -/
def displayBulkReport (s : Session) : Session × Eff :=
  match s.pending with
  | .bulkDisplay b =>
      ({ s with bulkResults := some b, phase := .bulkResults,
                loading := false, pending := .idle }, Eff.empty)
  | _ => (s, Eff.empty)

/-- The `analyzeImage` click (ANALYZE SCREENSHOT).  Guard: rendered only
while `phase == input` on the image tab with a file chosen, `disabled` while
`loading`; the function returns early when no file.  Body: synchronous
prefix of `analyzeImage()`. -/
def analyzeImage (token : Option String) (s : Session) : Session × Eff :=
  match s.imageFile with
  | some file =>
      if s.phase = .input ∧ s.loading = false ∧ s.inputMode = .image then
        ({ s with loading := true, phase := .scanning, scanProgress := 0,
                  result := none, feedbackGiven := none, companyVerify := none,
                  timerOn := true, pending := .imageWait },
         ⟨[.predictImage file token], none, none⟩)
      else (s, Eff.empty)
  | none => (s, Eff.empty)

/-- The response of the image `fetch` arriving.  Success leads to the same
display timeout as `analyze` but flagged as the image path, whose timeout
body does not look at `scraped_company` at all. -/
def analyzeImageRespond (resp : Except String VerdictResult) (s : Session) :
    Session × Eff :=
  match s.pending with
  | .imageWait =>
      match resp with
      | .ok data =>
          ({ s with timerOn := false, scanProgress := 100,
                    pending := .display true data }, Eff.empty)
      | .error msg =>
          ({ s with timerOn := false, loading := false, phase := .input,
                    pending := .idle },
           ⟨[], some msg, none⟩)
  | _ => (s, Eff.empty)

/-- The DOWNLOAD CSV RESULTS click together with the outcome of its awaited
request.  Guard: the button is rendered only on the bulk-results view; the
function returns early when no file or no token.  The response status is
never inspected: `res.blob()` is saved as `bulk_results.csv` whatever the
status; only a thrown request reaches the catch block, which alerts the
fixed string.  No session state is touched either way. -/
inductive DownloadResp where
  | http (ok : Bool) (body : String)
  | transportErr
deriving DecidableEq

/-- See `DownloadResp`: the `downloadBulkCsv` handler. -/
def downloadBulkCsv (token : Option String) (resp : DownloadResp)
    (s : Session) : Session × Eff :=
  match token, s.csvFile with
  | some tok, some file =>
      if s.phase = .bulkResults then
        match resp with
        | .http _ body =>
            (s, ⟨[.predictBulkDownload file tok], none,
                 some ("bulk_results.csv", body)⟩)
        | .transportErr =>
            (s, ⟨[.predictBulkDownload file tok], some "Download failed",
                 none⟩)
      else (s, Eff.empty)
  | _, _ => (s, Eff.empty)

/-- A manual `verifyCompany(name)` call from the verdict view.  Guard: the
company input is rendered only on the verdict view when the result has no
truthy `scraped_company`; the button is `disabled` while `companyLoading`;
the function returns early on an empty name. -/
def verifyCompany (name : String) (s : Session) : Session × Eff :=
  match s.result with
  | some v =>
      if s.phase = .verdict ∧ strTruthy v.scraped_company = false ∧
         s.companyLoading = false ∧ name ≠ "" then
        ({ s with companyLoading := true },
         ⟨[.verifyCompanyReq name], none, none⟩)
      else (s, Eff.empty)
  | none => (s, Eff.empty)

/-- The company-verification response arriving: only an ok response writes
`companyVerify`; `companyLoading` is cleared in the finally block either
way. -/
def companyRespond (resp : Option CompanyVerification) (s : Session) :
    Session :=
  if s.companyLoading = true then
    match resp with
    | some cv => { s with companyVerify := some cv, companyLoading := false }
    | none => { s with companyLoading := false }
  else s

/-- A `submitFeedback(f)` click.  Guard: the agree/disagree buttons are
rendered only on the verdict view, only when a token is present, and only
while `feedbackGiven` is still null (once set, the thank-you badge replaces
them); the handlers pass only the literals agree and disagree; the function
returns early when `result?.prediction_id` is falsy or no token. -/
def submitFeedback (token : Option String) (f : String) (s : Session) :
    Session × Eff :=
  match token, s.result with
  | some tok, some v =>
      if s.phase = .verdict ∧ s.feedbackGiven = none ∧
         (f = "agree" ∨ f = "disagree") ∧ natTruthy v.prediction_id = true then
        match v.prediction_id with
        | some pid =>
            ({ s with feedbackPending := some f },
             ⟨[.feedbackReq pid f tok], none, none⟩)
        | none => (s, Eff.empty)
      else (s, Eff.empty)
  | _, _ => (s, Eff.empty)

/-- The feedback response arriving: only an ok response writes
`feedbackGiven`. -/
def feedbackRespond (ok : Bool) (s : Session) : Session :=
  match s.feedbackPending with
  | some f =>
      if ok then { s with feedbackGiven := some f, feedbackPending := none }
      else { s with feedbackPending := none }
  | none => s

/-- The FLAG FOR REVIEW click and its awaited request.  Guard: rendered only
on the verdict view for a Fake prediction with a token.  It mutates no
session state; the alert depends only on whether the request threw. -/
def flagPrediction (token : Option String) (threw : Bool) (s : Session) :
    Session × Eff :=
  match token, s.result with
  | some tok, some v =>
      if s.phase = .verdict ∧ v.prediction = "Fake" then
        if threw then (s, ⟨[.flagReq v.prediction_id tok],
                           some "Failed to flag.", none⟩)
        else (s, ⟨[.flagReq v.prediction_id tok],
                  some "Post flagged for review.", none⟩)
      else (s, Eff.empty)
  | _, _ => (s, Eff.empty)

/-- The body of `reset()` exactly as written: unconditional, from any
state.  It does not touch `loading`, `inputMode`, the interval, the pending
continuation, `companyLoading` or `feedbackPending`. -/
def reset (s : Session) : Session :=
  { s with phase := .input, result := none, bulkResults := none,
           jobText := "", urlInput := "", csvFile := none,
           imageFile := none, imagePreview := none,
           scanProgress := 0, feedbackGiven := none, companyVerify := none }

/-- The ANALYZE ANOTHER / ANALYZE MORE click: the only call sites of
`reset()` are buttons rendered on the verdict and bulk-results views. -/
def clickReset (s : Session) : Session :=
  if s.phase = .verdict ∨ s.phase = .bulkResults then reset s else s

/-- A tab click: the tab bar is rendered only on the input view. -/
def clickTab (m : InputMode) (s : Session) : Session :=
  if s.phase = .input then { s with inputMode := m } else s

/-- Typing in the job-text area (input view, text tab). -/
def editJobText (t : String) (s : Session) : Session :=
  if s.phase = .input then { s with jobText := t } else s

/-- Typing in the url field (input view, url tab). -/
def editUrl (t : String) (s : Session) : Session :=
  if s.phase = .input then { s with urlInput := t } else s

/-- Choosing a csv file (input view, csv tab). -/
def chooseCsv (f : String) (s : Session) : Session :=
  if s.phase = .input then { s with csvFile := some f } else s

/-- Choosing an image file (input view, image tab); the FileReader callback
then installs the preview. -/
def chooseImage (f prev : String) (s : Session) : Session :=
  if s.phase = .input then
    { s with imageFile := some f, imagePreview := some prev }
  else s

/-- Every atomic event that can touch the session. -/
inductive Event where
  | tab (m : InputMode)
  | editText (t : String)
  | editUrlField (t : String)
  | pickCsv (f : String)
  | pickImage (f prev : String)
  | submitSingle (token : Option String)
  | submitBulk (token : Option String)
  | submitImage (token : Option String)
  | timerTick (r : ℚ)
  | singleResp (r : Except String VerdictResult)
  | imageResp (r : Except String VerdictResult)
  | bulkResp (r : Except String BulkReport)
  | displayTimeout (token : Option String)
  | bulkDisplayTimeout
  | manualVerify (name : String)
  | companyResp (r : Option CompanyVerification)
  | feedbackClick (token : Option String) (f : String)
  | feedbackResp (ok : Bool)
  | flagClick (token : Option String) (threw : Bool)
  | downloadClick (token : Option String) (resp : DownloadResp)
  | resetClick

/-- Dispatch of one event to its step. -/
def applyEvent : Event → Session → Session × Eff
  | .tab m, s => (clickTab m s, Eff.empty)
  | .editText t, s => (editJobText t s, Eff.empty)
  | .editUrlField t, s => (editUrl t s, Eff.empty)
  | .pickCsv f, s => (chooseCsv f s, Eff.empty)
  | .pickImage f prev, s => (chooseImage f prev s, Eff.empty)
  | .submitSingle token, s => analyze token s
  | .submitBulk token, s => analyzeBulk token s
  | .submitImage token, s => analyzeImage token s
  | .timerTick r, s => (stepTick r s, Eff.empty)
  | .singleResp r, s => analyzeRespond r s
  | .imageResp r, s => analyzeImageRespond r s
  | .bulkResp r, s => bulkRespond r s
  | .displayTimeout token, s => displayVerdict token s
  | .bulkDisplayTimeout, s => displayBulkReport s
  | .manualVerify name, s => verifyCompany name s
  | .companyResp r, s => (companyRespond r s, Eff.empty)
  | .feedbackClick token f, s => submitFeedback token f s
  | .feedbackResp ok, s => (feedbackRespond ok s, Eff.empty)
  | .flagClick token threw, s => flagPrediction token threw s
  | .downloadClick token resp, s => downloadBulkCsv token resp s
  | .resetClick, s => (clickReset s, Eff.empty)

/-- States reachable from the initial page state by any event sequence. -/
inductive Reachable : Session → Prop where
  | init : Reachable initSession
  | step {s : Session} (h : Reachable s) (e : Event) :
      Reachable (applyEvent e s).1

/-- The session invariant behind the phase/payload correspondence: the
verdict payload is present exactly in the verdict phase, the bulk report
exactly in the bulk-results phase, and an outstanding submission
continuation pins the phase to scanning. -/
abbrev Inv (s : Session) : Prop :=
  (s.result.isSome = true ↔ s.phase = .verdict) ∧
  (s.bulkResults.isSome = true ↔ s.phase = .bulkResults) ∧
  (s.pending.isIdle = false → s.phase = .scanning)

/-- Recognizer for company-verification requests among emitted requests. -/
def isVerifyReq : Request → Bool
  | .verifyCompanyReq _ => true
  | _ => false

/-- A state in the scanning phase with a text/url submission in flight and
every pending input populated (used to exercise the no-op guards). -/
def sampleScanning : Session :=
  { initSession with jobText := "offer", urlInput := "http x",
                     csvFile := some "jobs.csv", imageFile := some "shot.png",
                     phase := .scanning, loading := true, timerOn := true,
                     pending := .analyzeWait }

/-- A scanning state with a bulk submission in flight. -/
def sampleBulkScanning : Session :=
  { initSession with csvFile := some "jobs.csv", inputMode := .csv,
                     phase := .scanning, loading := true, timerOn := true,
                     pending := .bulkWait }

/-- A scanning state with an image submission in flight. -/
def sampleImageScanning : Session :=
  { initSession with imageFile := some "shot.png", inputMode := .image,
                     phase := .scanning, loading := true, timerOn := true,
                     pending := .imageWait }

/-- A scanning state for a text submission that has already accumulated
some tick progress (10 percent). -/
def sampleFailState : Session :=
  { sampleScanning with scanProgress := 10 }

/-- A verdict payload carrying a scraped company name. -/
def vAcme : VerdictResult :=
  ⟨some 7, "Fake", 90, some "Engineer", some "Acme Corp", none, none⟩

/-- A state whose image-path display timeout is pending with `vAcme`. -/
def sampleImageDisplay : Session :=
  { initSession with inputMode := .image, imageFile := some "shot.png",
                     phase := .scanning, loading := true,
                     pending := .display true vAcme }

/-- A state whose text/url-path display timeout is pending with `vAcme`. -/
def sampleTextDisplay : Session :=
  { initSession with jobText := "offer", phase := .scanning, loading := true,
                     pending := .display false vAcme }

/-- A verdict state in which feedback has already been given. -/
def sampleFeedbackDone : Session :=
  { initSession with phase := .verdict, result := some vAcme,
                     feedbackGiven := some "agree" }

/-- An input state on the csv tab with a file chosen. -/
def sampleCsvInput : Session :=
  { initSession with inputMode := .csv, csvFile := some "jobs.csv" }

/-- A bulk-results state holding the same chosen file. -/
def sampleBulkResults : Session :=
  { initSession with inputMode := .csv, csvFile := some "jobs.csv",
                     phase := .bulkResults,
                     bulkResults := some ⟨2, 1, 1, 50, []⟩ }

/-- The tick progress after 8 draws of 24/25 at text/url magnitude 12
(each tick adds 11.52). -/
def sampleMidScan : Session :=
  { sampleScanning with scanProgress := 2304/25 }

/-! ### Helper lemmas -/

theorem opt_none_of_iff {α : Type} {o : Option α} {p : Prop}
    (h1 : o.isSome = true ↔ p) (h : ¬ p) : o = none := by
  rcases ho : o with _ | v
  · rfl
  · rw [ho] at h1
    simp at h1
    exact absurd h1 h

theorem inv_init : Inv initSession := by
  simp [Inv, initSession, Pending.isIdle]

theorem inv_step (e : Event) (s : Session) (h : Inv s) :
    Inv (applyEvent e s).1 := by
  obtain ⟨h1, h2, h3⟩ := h
  cases e with
  | tab m =>
      simp only [applyEvent, clickTab]
      split <;> exact ⟨h1, h2, h3⟩
  | editText t =>
      simp only [applyEvent, editJobText]
      split <;> exact ⟨h1, h2, h3⟩
  | editUrlField t =>
      simp only [applyEvent, editUrl]
      split <;> exact ⟨h1, h2, h3⟩
  | pickCsv f =>
      simp only [applyEvent, chooseCsv]
      split <;> exact ⟨h1, h2, h3⟩
  | pickImage f prev =>
      simp only [applyEvent, chooseImage]
      split <;> exact ⟨h1, h2, h3⟩
  | submitSingle token =>
      simp only [applyEvent, analyze]
      split
      · rename_i hc
        have hb : s.bulkResults = none :=
          opt_none_of_iff h2 (by simp [hc.1])
        exact ⟨by simp, by simp [hb], fun _ => rfl⟩
      · exact ⟨h1, h2, h3⟩
  | submitBulk token =>
      rcases token with _ | tok
      · simp only [applyEvent, analyzeBulk]
        exact ⟨h1, h2, h3⟩
      · rcases hcsv : s.csvFile with _ | file
        · simp only [applyEvent, analyzeBulk, hcsv]
          exact ⟨h1, h2, h3⟩
        · simp only [applyEvent, analyzeBulk, hcsv]
          split
          · rename_i hc
            have hr : s.result = none :=
              opt_none_of_iff h1 (by simp [hc.1])
            exact ⟨by simp [hr], by simp, fun _ => rfl⟩
          · exact ⟨h1, h2, h3⟩
  | submitImage token =>
      rcases hi : s.imageFile with _ | file
      · simp only [applyEvent, analyzeImage, hi]
        exact ⟨h1, h2, h3⟩
      · simp only [applyEvent, analyzeImage, hi]
        split
        · rename_i hc
          have hb : s.bulkResults = none :=
            opt_none_of_iff h2 (by simp [hc.1])
          exact ⟨by simp, by simp [hb], fun _ => rfl⟩
        · exact ⟨h1, h2, h3⟩
  | timerTick r =>
      rcases hp : s.pending with _ | _ | _ | _ | ⟨fi, v⟩ | ⟨b⟩ <;>
        simp only [applyEvent, stepTick, tickInc, hp]
      case idle => split <;> exact ⟨h1, h2, h3⟩
      case analyzeWait =>
        split
        · split <;> exact ⟨h1, h2, fun _ => h3 (by rw [hp]; rfl)⟩
        · exact ⟨h1, h2, h3⟩
      case imageWait =>
        split
        · split <;> exact ⟨h1, h2, fun _ => h3 (by rw [hp]; rfl)⟩
        · exact ⟨h1, h2, h3⟩
      case bulkWait =>
        split
        · split <;> exact ⟨h1, h2, fun _ => h3 (by rw [hp]; rfl)⟩
        · exact ⟨h1, h2, h3⟩
      case display => split <;> exact ⟨h1, h2, h3⟩
      case bulkDisplay => split <;> exact ⟨h1, h2, h3⟩
  | singleResp r =>
      rcases hp : s.pending with _ | _ | _ | _ | ⟨fi, v⟩ | ⟨b⟩ <;>
        simp only [applyEvent, analyzeRespond, hp]
      case analyzeWait =>
        have hsc : s.phase = .scanning := h3 (by rw [hp]; rfl)
        rcases r with ⟨msg⟩ | ⟨data⟩
        · have hr : s.result = none := opt_none_of_iff h1 (by simp [hsc])
          have hb : s.bulkResults = none := opt_none_of_iff h2 (by simp [hsc])
          exact ⟨by simp [hr], by simp [hb], by simp [Pending.isIdle]⟩
        · exact ⟨h1, h2, fun _ => hsc⟩
      all_goals exact ⟨h1, h2, h3⟩
  | imageResp r =>
      rcases hp : s.pending with _ | _ | _ | _ | ⟨fi, v⟩ | ⟨b⟩ <;>
        simp only [applyEvent, analyzeImageRespond, hp]
      case imageWait =>
        have hsc : s.phase = .scanning := h3 (by rw [hp]; rfl)
        rcases r with ⟨msg⟩ | ⟨data⟩
        · have hr : s.result = none := opt_none_of_iff h1 (by simp [hsc])
          have hb : s.bulkResults = none := opt_none_of_iff h2 (by simp [hsc])
          exact ⟨by simp [hr], by simp [hb], by simp [Pending.isIdle]⟩
        · exact ⟨h1, h2, fun _ => hsc⟩
      all_goals exact ⟨h1, h2, h3⟩
  | bulkResp r =>
      rcases hp : s.pending with _ | _ | _ | _ | ⟨fi, v⟩ | ⟨b⟩ <;>
        simp only [applyEvent, bulkRespond, hp]
      case bulkWait =>
        have hsc : s.phase = .scanning := h3 (by rw [hp]; rfl)
        rcases r with ⟨msg⟩ | ⟨data⟩
        · have hr : s.result = none := opt_none_of_iff h1 (by simp [hsc])
          have hb : s.bulkResults = none := opt_none_of_iff h2 (by simp [hsc])
          exact ⟨by simp [hr], by simp [hb], by simp [Pending.isIdle]⟩
        · exact ⟨h1, h2, fun _ => hsc⟩
      all_goals exact ⟨h1, h2, h3⟩
  | displayTimeout token =>
      rcases hp : s.pending with _ | _ | _ | _ | ⟨fi, v⟩ | ⟨b⟩ <;>
        simp only [applyEvent, displayVerdict, hp]
      case display =>
        have hsc : s.phase = .scanning := h3 (by rw [hp]; rfl)
        have hb : s.bulkResults = none := opt_none_of_iff h2 (by simp [hsc])
        split
        · exact ⟨by simp [displayBase], by simp [displayBase, hb],
                 by simp [displayBase, Pending.isIdle]⟩
        · split <;> try split
          all_goals
            exact ⟨by simp [displayBase], by simp [displayBase, hb],
                   by simp [displayBase, Pending.isIdle]⟩
      all_goals exact ⟨h1, h2, h3⟩
  | bulkDisplayTimeout =>
      rcases hp : s.pending with _ | _ | _ | _ | ⟨fi, v⟩ | ⟨b⟩ <;>
        simp only [applyEvent, displayBulkReport, hp]
      case bulkDisplay =>
        have hsc : s.phase = .scanning := h3 (by rw [hp]; rfl)
        have hr : s.result = none := opt_none_of_iff h1 (by simp [hsc])
        exact ⟨by simp [hr], by simp, by simp [Pending.isIdle]⟩
      all_goals exact ⟨h1, h2, h3⟩
  | manualVerify name =>
      rcases hr : s.result with _ | v <;>
        simp only [applyEvent, verifyCompany, hr]
      · exact ⟨h1, h2, h3⟩
      · split
        · exact ⟨hr ▸ h1, h2, h3⟩
        · exact ⟨h1, h2, h3⟩
  | companyResp r =>
      simp only [applyEvent, companyRespond]
      split
      · rcases r with _ | cv <;> exact ⟨h1, h2, h3⟩
      · exact ⟨h1, h2, h3⟩
  | feedbackClick token f =>
      rcases token with _ | tok
      · simp only [applyEvent, submitFeedback]
        exact ⟨h1, h2, h3⟩
      · rcases hr : s.result with _ | v <;>
          simp only [applyEvent, submitFeedback, hr]
        · exact ⟨h1, h2, h3⟩
        · split
          · rcases v.prediction_id with _ | pid
            · exact ⟨h1, h2, h3⟩
            · exact ⟨hr ▸ h1, h2, h3⟩
          · exact ⟨h1, h2, h3⟩
  | feedbackResp ok =>
      rcases hf : s.feedbackPending with _ | f <;>
        simp only [applyEvent, feedbackRespond, hf]
      · exact ⟨h1, h2, h3⟩
      · split <;> exact ⟨h1, h2, h3⟩
  | flagClick token threw =>
      rcases token with _ | tok
      · simp only [applyEvent, flagPrediction]
        exact ⟨h1, h2, h3⟩
      · rcases hr : s.result with _ | v <;>
          simp only [applyEvent, flagPrediction, hr]
        · exact ⟨h1, h2, h3⟩
        · split
          · split <;> exact ⟨h1, h2, h3⟩
          · exact ⟨h1, h2, h3⟩
  | downloadClick token resp =>
      rcases token with _ | tok
      · simp only [applyEvent, downloadBulkCsv]
        exact ⟨h1, h2, h3⟩
      · rcases hc : s.csvFile with _ | file <;>
          simp only [applyEvent, downloadBulkCsv, hc]
        · exact ⟨h1, h2, h3⟩
        · split
          · rcases resp with ⟨ok, body⟩ | _ <;> exact ⟨h1, h2, h3⟩
          · exact ⟨h1, h2, h3⟩
  | resetClick =>
      simp only [applyEvent, clickReset]
      split
      · rename_i hc
        have hpIdle : s.pending.isIdle = true := by
          rcases hip : s.pending.isIdle
          · have hsc := h3 hip
            rcases hc with hv | hb2
            · rw [hv] at hsc
              exact absurd hsc (by simp)
            · rw [hb2] at hsc
              exact absurd hsc (by simp)
          · rfl
        refine ⟨by simp [reset], by simp [reset], ?_⟩
        intro hf
        simp only [reset] at hf
        rw [hpIdle] at hf
        exact absurd hf (by simp)
      · exact ⟨h1, h2, h3⟩

/-! ### The tick recurrence bound (helper) -/

theorem ticks_aux (inc : ℚ) (hinc : 0 < inc) :
    ∀ (rs : List ℚ) (p : ℚ), 0 ≤ p → p < 95 + inc →
      (∀ r ∈ rs, 0 ≤ r ∧ r < 1) →
      rs.foldl (fun q r => scanTick inc q r) p < 95 + inc := by
  intro rs
  induction rs with
  | nil =>
      intro p h0 hlt hm
      simpa using hlt
  | cons r rs ih =>
      intro p h0 hlt hm
      have hr := hm r (by simp)
      have hrest : ∀ x ∈ rs, 0 ≤ x ∧ x < 1 := fun x hx => hm x (by simp [hx])
      simp only [List.foldl_cons]
      by_cases hp : 95 ≤ p
      · have he : scanTick inc p r = 95 := by
          unfold scanTick
          rw [if_pos hp]
        rw [he]
        exact ih 95 (by norm_num) (by linarith) hrest
      · push_neg at hp
        have he : scanTick inc p r = p + r * inc := by
          unfold scanTick
          rw [if_neg (not_le.mpr hp)]
        rw [he]
        have hnn : 0 ≤ r * inc := mul_nonneg hr.1 hinc.le
        have hlt2 : r * inc < 1 * inc := mul_lt_mul_of_pos_right hr.2 hinc
        exact ih (p + r * inc) (by linarith) (by linarith) hrest

/-! ### Claim theorems -/

/-- C1: invoking any submission operation (text/url `analyze`, `analyzeBulk`
or `analyzeImage`) while the phase is scanning is a no-op: the session is
returned unchanged and no request, alert or artifact is produced.  The guard
is the phase-gated rendering of the input view together with the `disabled`
attribute driven by the `loading` flag. -/
theorem submission_noop_while_scanning (token : Option String) (s : Session)
    (h : s.phase = .scanning) :
    analyze token s = (s, Eff.empty) ∧
    analyzeBulk token s = (s, Eff.empty) ∧
    analyzeImage token s = (s, Eff.empty) := by
  refine ⟨?_, ?_, ?_⟩
  · simp [analyze, h]
  · rcases token with _ | tok
    · simp [analyzeBulk]
    · rcases hc : s.csvFile with _ | f <;> simp [analyzeBulk, hc, h]
  · rcases hi : s.imageFile with _ | f <;> simp [analyzeImage, hi, h]

/-- Witness for C1 at a concrete scanning state with every pending input
populated and a token present. -/
theorem submission_noop_while_scanning_witness :
    sampleScanning.phase = Phase.scanning ∧
    (analyze (some "tok") sampleScanning = (sampleScanning, Eff.empty) ∧
     analyzeBulk (some "tok") sampleScanning = (sampleScanning, Eff.empty) ∧
     analyzeImage (some "tok") sampleScanning = (sampleScanning, Eff.empty)) :=
  ⟨rfl, submission_noop_while_scanning (some "tok") sampleScanning rfl⟩

/-- C2 counterexample: nine tick draws of 24/25 (each inside the unit
interval) at the text/url magnitude 12 drive the progress value from 0 past
100 (to 103.68) with no completion or failure signal, and a single session
tick from the concrete scanning state at 92.16 likewise lands at or above
100.  The cap fires only on the tick after 95 has been reached, so the
stored progress is not kept strictly below 100. -/
theorem tick_progress_can_reach_100_cex :
    (0 ≤ (24:ℚ)/25 ∧ (24:ℚ)/25 < 1) ∧
    (100:ℚ) ≤ ticksFrom 12 (List.replicate 9 ((24:ℚ)/25)) ∧
    (100:ℚ) ≤ (stepTick ((24:ℚ)/25) sampleMidScan).scanProgress := by
  refine ⟨⟨by norm_num, by norm_num⟩, ?_, ?_⟩
  · simp [ticksFrom, scanTick, List.replicate]
    norm_num
  · simp [stepTick, sampleMidScan, sampleScanning, initSession, tickInc,
          scanTick]
    norm_num

/-- C2 (amended): the tick cap is lazy.  A tick from a value at or above 95
clamps to 95, but a tick from below 95 adds its increment uncapped, so
progress can transiently reach 100 or more; from 0 it always stays strictly
below 95 plus the mode increment bound (107 for text/url). -/
theorem tick_cap_lazy_bound (inc : ℚ) (rs : List ℚ) (hinc : 0 < inc)
    (hrs : ∀ r ∈ rs, 0 ≤ r ∧ r < 1) :
    ticksFrom inc rs < 95 + inc ∧
    (∀ p r, 95 ≤ p → scanTick inc p r = 95) := by
  constructor
  · exact ticks_aux inc hinc rs 0 le_rfl (by linarith) hrs
  · intro p r hp
    unfold scanTick
    rw [if_pos hp]

/-- Witness for the amended C2 at magnitude 12 with a single draw of
one half. -/
theorem tick_cap_lazy_bound_witness :
    ((0:ℚ) < 12 ∧ (∀ r ∈ [(1:ℚ)/2], 0 ≤ r ∧ r < 1)) ∧
    (ticksFrom 12 [(1:ℚ)/2] < 95 + 12 ∧
     (∀ p r, 95 ≤ p → scanTick 12 p r = 95)) :=
  ⟨⟨by norm_num, by
      intro r hr
      rw [List.mem_singleton] at hr
      subst hr
      exact ⟨by norm_num, by norm_num⟩⟩,
   tick_cap_lazy_bound 12 [(1:ℚ)/2] (by norm_num) (by
      intro r hr
      rw [List.mem_singleton] at hr
      subst hr
      exact ⟨by norm_num, by norm_num⟩)⟩

/-- C3 counterexample: at a scanning state whose progress is 10, a request
failure runs the catch block, which reverts the phase and cancels the timer
but leaves the progress value at 10 rather than resetting it to 0. -/
theorem failure_keeps_progress_cex :
    (analyzeRespond (.error "Analysis failed") sampleFailState).1.phase =
      Phase.input ∧
    (analyzeRespond (.error "Analysis failed") sampleFailState).1.timerOn =
      false ∧
    (analyzeRespond (.error "Analysis failed") sampleFailState).2.alertMsg =
      some "Analysis failed" ∧
    (analyzeRespond (.error "Analysis failed") sampleFailState).1.scanProgress
      = 10 ∧
    (10:ℚ) ≠ 0 :=
  ⟨rfl, rfl, rfl, rfl, by norm_num⟩

/-- C3 (amended): on a request failure of any submission path (text/url,
bulk, or image) the handler cancels the timer, clears the loading flag,
reverts the phase to input and surfaces the message, but it leaves the
progress value unchanged; progress returns to 0 only where the code writes
it: at the start of a submission that actually fires, or in `reset`. -/
theorem failure_cancels_timer_progress_not_reset (s t u : Session)
    (m1 m2 m3 : String) (hs : s.pending = .analyzeWait)
    (ht : t.pending = .bulkWait) (hu : u.pending = .imageWait) :
    ((analyzeRespond (.error m1) s).1.timerOn = false ∧
     (analyzeRespond (.error m1) s).1.loading = false ∧
     (analyzeRespond (.error m1) s).1.phase = .input ∧
     (analyzeRespond (.error m1) s).2.alertMsg = some m1 ∧
     (analyzeRespond (.error m1) s).1.scanProgress = s.scanProgress) ∧
    ((bulkRespond (.error m2) t).1.timerOn = false ∧
     (bulkRespond (.error m2) t).1.loading = false ∧
     (bulkRespond (.error m2) t).1.phase = .input ∧
     (bulkRespond (.error m2) t).2.alertMsg = some m2 ∧
     (bulkRespond (.error m2) t).1.scanProgress = t.scanProgress) ∧
    ((analyzeImageRespond (.error m3) u).1.timerOn = false ∧
     (analyzeImageRespond (.error m3) u).1.loading = false ∧
     (analyzeImageRespond (.error m3) u).1.phase = .input ∧
     (analyzeImageRespond (.error m3) u).2.alertMsg = some m3 ∧
     (analyzeImageRespond (.error m3) u).1.scanProgress = u.scanProgress) ∧
    (∀ w : Session, (reset w).scanProgress = 0) ∧
    (∀ w : Session, ∀ tok : Option String,
      ((analyze tok w).2.requests ≠ [] →
        (analyze tok w).1.scanProgress = 0) ∧
      ((analyzeBulk tok w).2.requests ≠ [] →
        (analyzeBulk tok w).1.scanProgress = 0) ∧
      ((analyzeImage tok w).2.requests ≠ [] →
        (analyzeImage tok w).1.scanProgress = 0)) := by
  refine ⟨?_, ?_, ?_, ?_, ?_⟩
  · simp [analyzeRespond, hs]
  · simp [bulkRespond, ht]
  · simp [analyzeImageRespond, hu]
  · intro w
    rfl
  · intro w tok
    refine ⟨?_, ?_, ?_⟩
    · simp only [analyze]
      split
      · intro _
        rfl
      · intro hreq
        exact absurd rfl hreq
    · rcases tok with _ | tk
      · simp only [analyzeBulk]
        intro hreq
        exact absurd rfl hreq
      · rcases hcw : w.csvFile with _ | fw
        · simp only [analyzeBulk, hcw]
          intro hreq
          exact absurd rfl hreq
        · simp only [analyzeBulk, hcw]
          split
          · intro _
            rfl
          · intro hreq
            exact absurd rfl hreq
    · rcases hiw : w.imageFile with _ | fw
      · simp only [analyzeImage, hiw]
        intro hreq
        exact absurd rfl hreq
      · simp only [analyzeImage, hiw]
        split
        · intro _
          rfl
        · intro hreq
          exact absurd rfl hreq

/-- Witness for the amended C3 at concrete scanning states for the
text/url, bulk, and image paths. -/
theorem failure_cancels_timer_progress_not_reset_witness :
    (sampleFailState.pending = Pending.analyzeWait ∧
     sampleBulkScanning.pending = Pending.bulkWait ∧
     sampleImageScanning.pending = Pending.imageWait) ∧
    (((analyzeRespond (.error "a") sampleFailState).1.timerOn = false ∧
      (analyzeRespond (.error "a") sampleFailState).1.loading = false ∧
      (analyzeRespond (.error "a") sampleFailState).1.phase = .input ∧
      (analyzeRespond (.error "a") sampleFailState).2.alertMsg = some "a" ∧
      (analyzeRespond (.error "a") sampleFailState).1.scanProgress =
        sampleFailState.scanProgress) ∧
     ((bulkRespond (.error "b") sampleBulkScanning).1.timerOn = false ∧
      (bulkRespond (.error "b") sampleBulkScanning).1.loading = false ∧
      (bulkRespond (.error "b") sampleBulkScanning).1.phase = .input ∧
      (bulkRespond (.error "b") sampleBulkScanning).2.alertMsg = some "b" ∧
      (bulkRespond (.error "b") sampleBulkScanning).1.scanProgress =
        sampleBulkScanning.scanProgress) ∧
     ((analyzeImageRespond (.error "c") sampleImageScanning).1.timerOn =
        false ∧
      (analyzeImageRespond (.error "c") sampleImageScanning).1.loading =
        false ∧
      (analyzeImageRespond (.error "c") sampleImageScanning).1.phase =
        .input ∧
      (analyzeImageRespond (.error "c") sampleImageScanning).2.alertMsg =
        some "c" ∧
      (analyzeImageRespond (.error "c") sampleImageScanning).1.scanProgress =
        sampleImageScanning.scanProgress) ∧
     (∀ w : Session, (reset w).scanProgress = 0) ∧
     (∀ w : Session, ∀ tok : Option String,
       ((analyze tok w).2.requests ≠ [] →
         (analyze tok w).1.scanProgress = 0) ∧
       ((analyzeBulk tok w).2.requests ≠ [] →
         (analyzeBulk tok w).1.scanProgress = 0) ∧
       ((analyzeImage tok w).2.requests ≠ [] →
         (analyzeImage tok w).1.scanProgress = 0))) :=
  ⟨⟨rfl, rfl, rfl⟩, failure_cancels_timer_progress_not_reset sampleFailState
     sampleBulkScanning sampleImageScanning "a" "b" "c" rfl rfl rfl⟩

/-- C4: once feedback has been recorded for the current verdict, any further
`submitFeedback` call returns the session unchanged and issues no request.
The agree/disagree controls are replaced by a badge once `feedbackGiven` is
set, so the guarded operation refuses a second submission. -/
theorem feedback_at_most_once (token : Option String) (f g : String)
    (s : Session) (h : s.feedbackGiven = some g) :
    submitFeedback token f s = (s, Eff.empty) := by
  rcases token with _ | tok
  · simp [submitFeedback]
  · rcases hr : s.result with _ | v <;> simp [submitFeedback, hr, h]

/-- Witness for C4 at a verdict state where agreement was already given. -/
theorem feedback_at_most_once_witness :
    sampleFeedbackDone.feedbackGiven = some "agree" ∧
    submitFeedback (some "tok") "disagree" sampleFeedbackDone =
      (sampleFeedbackDone, Eff.empty) :=
  ⟨rfl, feedback_at_most_once (some "tok") "disagree" "agree"
     sampleFeedbackDone rfl⟩

/-- C5 counterexample: the display timeout of an image submission whose
verdict carries a truthy scraped company name issues only the history
request and never a company-verification request, and leaves
`companyVerify` empty, contradicting the claim that every single-item
verdict with a scraped company triggers verification. -/
theorem image_no_auto_verify_cex :
    vAcme.scraped_company = some "Acme Corp" ∧
    strTruthy vAcme.scraped_company = true ∧
    sampleImageDisplay.pending = Pending.display true vAcme ∧
    (displayVerdict (some "tok") sampleImageDisplay).1.result = some vAcme ∧
    (displayVerdict (some "tok") sampleImageDisplay).1.phase =
      Phase.verdict ∧
    (displayVerdict (some "tok") sampleImageDisplay).2.requests =
      [Request.historyReq "tok"] ∧
    (displayVerdict (some "tok") sampleImageDisplay).1.companyVerify =
      none ∧
    (displayVerdict (some "tok") sampleImageDisplay).1.companyLoading =
      false :=
  ⟨rfl, rfl, rfl, rfl, rfl, rfl, rfl, rfl⟩

/-- C5 (amended): the text/url display timeout issues exactly one
company-verification request when the scraped company is truthy, and a
repeated timeout is a no-op, so verification fires exactly once per such
verdict; the image display timeout and the bulk display timeout never issue
a verification request. -/
theorem auto_verify_only_text_url (token : Option String) (s : Session)
    (v : VerdictResult) (name : String) (hp : s.pending = .display false v)
    (hc : v.scraped_company = some name) (hn : name ≠ "") :
    Request.verifyCompanyReq name ∈ (displayVerdict token s).2.requests ∧
    ((displayVerdict token s).2.requests.countP
        (fun r => isVerifyReq r)) = 1 ∧
    (displayVerdict token s).1.pending = Pending.idle ∧
    displayVerdict token (displayVerdict token s).1 =
      ((displayVerdict token s).1, Eff.empty) ∧
    (∀ u : Session, ∀ w : VerdictResult, u.pending = .display true w →
      (displayVerdict token u).2.requests.countP
        (fun r => isVerifyReq r) = 0) ∧
    (∀ u : Session, (displayBulkReport u).2.requests = []) := by
  refine ⟨?_, ?_, ?_, ?_, ?_, ?_⟩
  · simp [displayVerdict, hp, hc, hn]
  · rcases token with _ | tok <;>
      simp [displayVerdict, hp, hc, hn, histReqs, isVerifyReq]
  · simp [displayVerdict, hp, hc, hn, displayBase]
  · simp [displayVerdict, hp, hc, hn, displayBase]
  · intro u w hu
    rcases token with _ | tok <;>
      simp [displayVerdict, hu, histReqs, isVerifyReq]
  · intro u
    rcases hu : u.pending <;> simp [displayBulkReport, hu, Eff.empty]

/-- Witness for the amended C5 at a concrete pending display state carrying
the Acme verdict. -/
theorem auto_verify_only_text_url_witness :
    (sampleTextDisplay.pending = Pending.display false vAcme ∧
     vAcme.scraped_company = some "Acme Corp" ∧ "Acme Corp" ≠ "") ∧
    (Request.verifyCompanyReq "Acme Corp" ∈
        (displayVerdict none sampleTextDisplay).2.requests ∧
     ((displayVerdict none sampleTextDisplay).2.requests.countP
        (fun r => isVerifyReq r)) = 1 ∧
     (displayVerdict none sampleTextDisplay).1.pending = Pending.idle ∧
     displayVerdict none (displayVerdict none sampleTextDisplay).1 =
       ((displayVerdict none sampleTextDisplay).1, Eff.empty) ∧
     (∀ u : Session, ∀ w : VerdictResult, u.pending = .display true w →
       (displayVerdict none u).2.requests.countP
         (fun r => isVerifyReq r) = 0) ∧
     (∀ u : Session, (displayBulkReport u).2.requests = [])) :=
  ⟨⟨rfl, rfl, by decide⟩,
   auto_verify_only_text_url none sampleTextDisplay vAcme "Acme Corp"
     rfl rfl (by decide)⟩

/-- C6: in every reachable session state the verdict payload is present
exactly in the verdict phase and the bulk report exactly in the bulk-results
phase; in particular both are absent whenever the session is back in the
input phase. -/
theorem result_bulk_phase_invariant (s : Session) (h : Reachable s) :
    (s.result.isSome = true ↔ s.phase = .verdict) ∧
    (s.bulkResults.isSome = true ↔ s.phase = .bulkResults) ∧
    (s.phase = .input → s.result = none ∧ s.bulkResults = none) := by
  have hi : Inv s := by
    induction h with
    | init => exact inv_init
    | step h e ih => exact inv_step e _ ih
  obtain ⟨h1, h2, _⟩ := hi
  exact ⟨h1, h2, fun hp =>
    ⟨opt_none_of_iff h1 (by simp [hp]), opt_none_of_iff h2 (by simp [hp])⟩⟩

/-- Witness for C6 at the initial (reachable) state. -/
theorem result_bulk_phase_invariant_witness :
    Reachable initSession ∧
    ((initSession.result.isSome = true ↔ initSession.phase = .verdict) ∧
     (initSession.bulkResults.isSome = true ↔
       initSession.phase = .bulkResults) ∧
     (initSession.phase = .input →
       initSession.result = none ∧ initSession.bulkResults = none)) :=
  ⟨Reachable.init, result_bulk_phase_invariant initSession Reachable.init⟩

/-- C7: a request failure on any submission path reverts the phase to
input, surfaces the backend message, and leaves every pending input (typed
job text, typed url, chosen csv file, chosen image file) untouched for
retry. -/
theorem request_failure_reverts_preserves_input (s t u : Session)
    (m1 m2 m3 : String) (hs : s.pending = .analyzeWait)
    (ht : t.pending = .bulkWait) (hu : u.pending = .imageWait) :
    ((analyzeRespond (.error m1) s).1.phase = .input ∧
     (analyzeRespond (.error m1) s).2.alertMsg = some m1 ∧
     (analyzeRespond (.error m1) s).1.jobText = s.jobText ∧
     (analyzeRespond (.error m1) s).1.urlInput = s.urlInput ∧
     (analyzeRespond (.error m1) s).1.csvFile = s.csvFile ∧
     (analyzeRespond (.error m1) s).1.imageFile = s.imageFile) ∧
    ((bulkRespond (.error m2) t).1.phase = .input ∧
     (bulkRespond (.error m2) t).2.alertMsg = some m2 ∧
     (bulkRespond (.error m2) t).1.jobText = t.jobText ∧
     (bulkRespond (.error m2) t).1.urlInput = t.urlInput ∧
     (bulkRespond (.error m2) t).1.csvFile = t.csvFile ∧
     (bulkRespond (.error m2) t).1.imageFile = t.imageFile) ∧
    ((analyzeImageRespond (.error m3) u).1.phase = .input ∧
     (analyzeImageRespond (.error m3) u).2.alertMsg = some m3 ∧
     (analyzeImageRespond (.error m3) u).1.jobText = u.jobText ∧
     (analyzeImageRespond (.error m3) u).1.urlInput = u.urlInput ∧
     (analyzeImageRespond (.error m3) u).1.csvFile = u.csvFile ∧
     (analyzeImageRespond (.error m3) u).1.imageFile = u.imageFile) := by
  refine ⟨?_, ?_, ?_⟩ <;>
    simp [analyzeRespond, bulkRespond, analyzeImageRespond, hs, ht, hu]

/-- Witness for C7 at concrete scanning states whose pending inputs are all
populated. -/
theorem request_failure_reverts_preserves_input_witness :
    (sampleScanning.pending = Pending.analyzeWait ∧
     sampleBulkScanning.pending = Pending.bulkWait ∧
     sampleImageScanning.pending = Pending.imageWait) ∧
    (((analyzeRespond (.error "x") sampleScanning).1.phase = .input ∧
      (analyzeRespond (.error "x") sampleScanning).2.alertMsg = some "x" ∧
      (analyzeRespond (.error "x") sampleScanning).1.jobText =
        sampleScanning.jobText ∧
      (analyzeRespond (.error "x") sampleScanning).1.urlInput =
        sampleScanning.urlInput ∧
      (analyzeRespond (.error "x") sampleScanning).1.csvFile =
        sampleScanning.csvFile ∧
      (analyzeRespond (.error "x") sampleScanning).1.imageFile =
        sampleScanning.imageFile) ∧
     ((bulkRespond (.error "y") sampleBulkScanning).1.phase = .input ∧
      (bulkRespond (.error "y") sampleBulkScanning).2.alertMsg = some "y" ∧
      (bulkRespond (.error "y") sampleBulkScanning).1.jobText =
        sampleBulkScanning.jobText ∧
      (bulkRespond (.error "y") sampleBulkScanning).1.urlInput =
        sampleBulkScanning.urlInput ∧
      (bulkRespond (.error "y") sampleBulkScanning).1.csvFile =
        sampleBulkScanning.csvFile ∧
      (bulkRespond (.error "y") sampleBulkScanning).1.imageFile =
        sampleBulkScanning.imageFile) ∧
     ((analyzeImageRespond (.error "z") sampleImageScanning).1.phase =
        .input ∧
      (analyzeImageRespond (.error "z") sampleImageScanning).2.alertMsg =
        some "z" ∧
      (analyzeImageRespond (.error "z") sampleImageScanning).1.jobText =
        sampleImageScanning.jobText ∧
      (analyzeImageRespond (.error "z") sampleImageScanning).1.urlInput =
        sampleImageScanning.urlInput ∧
      (analyzeImageRespond (.error "z") sampleImageScanning).1.csvFile =
        sampleImageScanning.csvFile ∧
      (analyzeImageRespond (.error "z") sampleImageScanning).1.imageFile =
        sampleImageScanning.imageFile)) :=
  ⟨⟨rfl, rfl, rfl⟩, request_failure_reverts_preserves_input sampleScanning
     sampleBulkScanning sampleImageScanning "x" "y" "z" rfl rfl rfl⟩

/-- C8: the body of `reset()` is unconditional and, from any state, yields
the input phase with no result, no bulk report, zero progress, no feedback
state, no company verification, and all pending inputs cleared. -/
theorem reset_unconditional (s : Session) :
    (reset s).phase = .input ∧ (reset s).result = none ∧
    (reset s).bulkResults = none ∧ (reset s).scanProgress = 0 ∧
    (reset s).feedbackGiven = none ∧ (reset s).companyVerify = none ∧
    (reset s).jobText = "" ∧ (reset s).urlInput = "" ∧
    (reset s).csvFile = none ∧ (reset s).imageFile = none ∧
    (reset s).imagePreview = none :=
  ⟨rfl, rfl, rfl, rfl, rfl, rfl, rfl, rfl, rfl, rfl, rfl⟩

/-- C9: `downloadBulkCsv` and `analyzeBulk` validate the same precondition:
with the respective views rendered, one issues a request exactly when the
other would, and that condition is the presence of both the chosen csv file
and the auth token. -/
theorem bulk_download_same_precondition (token : Option String)
    (s t : Session) (resp : DownloadResp) (hs : s.phase = .input)
    (hm : s.inputMode = .csv) (hl : s.loading = false)
    (ht : t.phase = .bulkResults) (hf : s.csvFile = t.csvFile) :
    ((analyzeBulk token s).2.requests ≠ [] ↔
      (downloadBulkCsv token resp t).2.requests ≠ []) ∧
    ((analyzeBulk token s).2.requests ≠ [] ↔
      (s.csvFile.isSome = true ∧ token.isSome = true)) := by
  rcases token with _ | tok <;> rcases hcs : s.csvFile with _ | f <;>
    have hct := hf.symm.trans hcs <;>
    rcases resp with ⟨ok, body⟩ | _ <;>
    simp [analyzeBulk, downloadBulkCsv, hcs, hct, hs, hm, hl, ht, Eff.empty]

/-- Witness for C9 at a csv input state and a bulk-results state sharing the
same chosen file, with a token present. -/
theorem bulk_download_same_precondition_witness :
    (sampleCsvInput.phase = Phase.input ∧
     sampleCsvInput.inputMode = InputMode.csv ∧
     sampleCsvInput.loading = false ∧
     sampleBulkResults.phase = Phase.bulkResults ∧
     sampleCsvInput.csvFile = sampleBulkResults.csvFile) ∧
    (((analyzeBulk (some "tok") sampleCsvInput).2.requests ≠ [] ↔
       (downloadBulkCsv (some "tok") (DownloadResp.http true "body")
          sampleBulkResults).2.requests ≠ []) ∧
     ((analyzeBulk (some "tok") sampleCsvInput).2.requests ≠ [] ↔
       (sampleCsvInput.csvFile.isSome = true ∧
        (some "tok" : Option String).isSome = true))) :=
  ⟨⟨rfl, rfl, rfl, rfl, rfl⟩,
   bulk_download_same_precondition (some "tok") sampleCsvInput
     sampleBulkResults (DownloadResp.http true "body") rfl rfl rfl rfl rfl⟩

/-- C10: `downloadBulkCsv` never inspects the response status: any HTTP
response, successful or not, has its body saved as `bulk_results.csv` with
no alert, so a backend error detail is never surfaced from this operation;
the fixed notice appears only when the request itself throws.  The session
is unchanged either way. -/
theorem download_saves_body_ignores_status (tok file body : String)
    (ok : Bool) (t : Session) (h1 : t.phase = .bulkResults)
    (h2 : t.csvFile = some file) :
    downloadBulkCsv (some tok) (.http ok body) t =
      (t, ⟨[.predictBulkDownload file tok], none,
           some ("bulk_results.csv", body)⟩) ∧
    downloadBulkCsv (some tok) .transportErr t =
      (t, ⟨[.predictBulkDownload file tok], some "Download failed",
           none⟩) := by
  constructor <;> simp [downloadBulkCsv, h1, h2]

/-- Witness for C10 at a concrete bulk-results state, exercising in
particular a non-success HTTP response. -/
theorem download_saves_body_ignores_status_witness :
    (sampleBulkResults.phase = Phase.bulkResults ∧
     sampleBulkResults.csvFile = some "jobs.csv") ∧
    (downloadBulkCsv (some "tok") (DownloadResp.http false "id,row")
        sampleBulkResults =
      (sampleBulkResults,
       ⟨[Request.predictBulkDownload "jobs.csv" "tok"], none,
        some ("bulk_results.csv", "id,row")⟩) ∧
     downloadBulkCsv (some "tok") DownloadResp.transportErr
        sampleBulkResults =
      (sampleBulkResults,
       ⟨[Request.predictBulkDownload "jobs.csv" "tok"],
        some "Download failed", none⟩)) :=
  ⟨⟨rfl, rfl⟩, download_saves_body_ignores_status "tok" "jobs.csv" "id,row"
     false sampleBulkResults rfl rfl⟩

end FakeJob
